import Mathlib

/-!
Shallow embedding of `src/libtado/api_async.py`, the asynchronous client
for the tado REST API.  The embedding covers JSON values, the session
state held by the `Home` class, the authentication lifecycle (`login` and
`Home.refresh_auth`), the TTL cache behind `async_cached_property`, the
payload builders of `Home.set_temperature`, the zone-listing
transformation `Home.zones`, the `Home.get_early_start` projection and
the `Zone.inside_temperature` projection.  Network transport is modelled
by passing the HTTP responses the code would receive as explicit
arguments; Python exceptions become `Except` error values.
-/

namespace Tado

/-- Generic JSON value, the shape of all API payloads (`Object` in the
source).  Objects are modelled as ordered association lists, matching
Python dict insertion order; numbers are rationals. -/
inductive JSON where
  | str (s : String)
  | num (q : ℚ)
  | bool (b : Bool)
  | null
  | arr (elems : List JSON)
  | obj (fields : List (String × JSON))

/-- Python exceptions the embedded code can raise.  `clientResponseError`
is what the aiohttp method `response.raise_for_status()` raises (when the HTTP
status is `>= 400`); `keyError` is a failed dict subscript; `indexError`
a failed list subscript; `typeError` covers subscripting a non-container,
concatenating a non-string, and keyword-argument mismatches;
`pathAccessError` is the glom error for a failed path lookup. -/
inductive PyErr where
  | clientResponseError (status : Nat)
  | keyError (k : String)
  | indexError
  | typeError
  | pathAccessError (k : String)
  deriving DecidableEq, Repr

/-- Read from an ordered association list (Python dict read, `none` when
the key is absent). -/
def alistGet {κ α : Type} [DecidableEq κ] : List (κ × α) → κ → Option α
  | [], _ => none
  | p :: rest, k => if p.1 = k then some p.2 else alistGet rest k

/-- Write to an ordered association list (Python dict write `d[k] = v`):
replaces the first binding of `k` in place, else appends; insertion order
is preserved either way, matching Python dict semantics. -/
def alistSet {κ α : Type} [DecidableEq κ] : List (κ × α) → κ → α → List (κ × α)
  | [], k, v => [(k, v)]
  | p :: rest, k, v => if p.1 = k then (k, v) :: rest else p :: alistSet rest k v

/-- Python subscript `j[k]` on a decoded JSON value: `KeyError` when the
key is missing from an object, `TypeError` when `j` is not an object. -/
def JSON.getKey : JSON → String → Except PyErr JSON
  | .obj fields, k =>
    match alistGet fields k with
    | some v => .ok v
    | none => .error (.keyError k)
  | _, _ => .error .typeError

/-- An HTTP response as seen by the client: status code and decoded JSON
body (responses whose bodies fail to decode as JSON are outside the
model). -/
structure HttpResponse where
  status : Nat
  body : JSON

/-- Fixed headers attached at login (`HEADERS` in the source). -/
def HEADERS : List (String × String) := [("Referer", "https://my.tado.com/")]

/-- Base URL of the v2 REST API (`API_URL` in the source). -/
def API_URL : String := "https://my.tado.com/api/v2/"

/-- Mutable state of a `Home` instance: credentials, home id, tokens,
headers and the configured temperature unit.  The aiohttp connection
object held by the `session` attribute of the source carries no data relevant
to the claims and is not modelled.  The `id` and token fields hold the
raw JSON values assigned from the responses, since the source performs no
type check at assignment time. -/
structure HomeState where
  username : String
  secret : String
  id : JSON
  access_token : JSON
  refresh_token : JSON
  access_headers : List (String × String)
  temperature_unit : String

/-- Embeds `Home.refresh_auth`.  The source posts a refresh-token grant,
calls `raise_for_status()`, decodes the body, then mutates
`self.access_token`, `self.refresh_token` and the `Authorization` header
in that order; an exception part-way through leaves the earlier
assignments in place.  The error result therefore carries the session
state as it stands at the point the exception is raised.  Bearer-header
construction (`"Bearer " + self.access_token`) requires the new access
token to be a string, else Python raises `TypeError` after both token
assignments. -/
def refresh_auth (st : HomeState) (resp : HttpResponse) :
    Except (PyErr × HomeState) HomeState :=
  if 400 ≤ resp.status then .error (.clientResponseError resp.status, st)
  else
    match resp.body.getKey "access_token" with
    | .error e => .error (e, st)
    | .ok tok =>
      let st1 := { st with access_token := tok }
      match resp.body.getKey "refresh_token" with
      | .error e => .error (e, st1)
      | .ok rtok =>
        let st2 := { st1 with refresh_token := rtok }
        match tok with
        | .str s =>
          .ok { st2 with
                access_headers :=
                  alistSet st2.access_headers "Authorization" ("Bearer " ++ s) }
        | _ => .error (.typeError, st2)

/-- Embeds the module-level `login` coroutine.  It receives the token
endpoint response and the `me` endpoint response as arguments.  The
source never calls `raise_for_status()` in `login`, so neither HTTP
status is ever consulted; it reads `decoded["access_token"]` and
`decoded["refresh_token"]`, builds the `Authorization` header from a
second lookup of `decoded["access_token"]`, performs a throwaway GET to
the v1 `me` endpoint (cookie only, no observable state), then reads
`me["homes"][0]["id"]` and returns the populated `Home` (with the
constructor default `temperature_unit="celsius"`). -/
def login (username password secret : String) (tokenResp meResp : HttpResponse) :
    Except PyErr HomeState :=
  match tokenResp.body.getKey "access_token" with
  | .error e => .error e
  | .ok access_token =>
    match tokenResp.body.getKey "refresh_token" with
    | .error e => .error e
    | .ok refresh_token =>
      match tokenResp.body.getKey "access_token" with
      | .error e => .error e
      | .ok tok2 =>
        match tok2 with
        | .str s =>
          let access_headers := alistSet HEADERS "Authorization" ("Bearer " ++ s)
          match meResp.body.getKey "homes" with
          | .error e => .error e
          | .ok homes =>
            match homes with
            | .arr [] => .error .indexError
            | .arr (h :: _) =>
              match h.getKey "id" with
              | .error e => .error e
              | .ok home_id =>
                .ok { username := username, secret := secret, id := home_id,
                      access_token := access_token,
                      refresh_token := refresh_token,
                      access_headers := access_headers,
                      temperature_unit := "celsius" }
            | _ => .error .typeError
        | _ => .error .typeError

/-- Form body of the password-grant request that `login` posts to the
OAuth token endpoint. -/
def login_request_data (username password secret : String) : List (String × String) :=
  [("client_id", "tado-web-app"), ("client_secret", secret),
   ("grant_type", "password"), ("password", password),
   ("scope", "home.user"), ("username", username)]

/-- Form body of the refresh-token grant that `Home.refresh_auth` posts
to the OAuth token endpoint (the stored refresh token is sent verbatim). -/
def refresh_request_data (st : HomeState) : List (String × JSON) :=
  [("client_id", .str "tado-web-app"), ("client_secret", .str st.secret),
   ("grant_type", .str "refresh_token"), ("refresh_token", st.refresh_token),
   ("scope", .str "home.user")]

/-- One entry of a `cachetools.TTLCache`: the stored value and its
insertion time (the library records an expiry `insertedAt + ttl`). -/
structure CacheEntry where
  value : JSON
  insertedAt : ℚ

/-- Model of the `cachetools.TTLCache` instance that
`async_cached_property` attaches to the owning object (one per instance,
keyed by property name).  An entry is visible while `now < insertedAt +
ttl` and is treated as absent once expired; that is the documented
TTL contract of the library, which is the part the claims exercise.
Size-based LRU eviction (`maxsize`, default 16) is carried in the state
but no claim depends on the eviction order. -/
structure TTLCache where
  maxsize : Nat
  ttl : ℚ
  entries : List (String × CacheEntry)

/-- Membership test `key in cache` of `cachetools.TTLCache`: the stored
value when the entry exists and has not yet expired, else `none`. -/
def TTLCache.lookup (c : TTLCache) (key : String) (now : ℚ) : Option JSON :=
  match alistGet c.entries key with
  | some e => if now < e.insertedAt + c.ttl then some e.value else none
  | none => none

/-- Expiry sweep of `cachetools.TTLCache`: drop every entry whose TTL
window has elapsed at `now` (the library runs it before each insertion). -/
def TTLCache.expire (c : TTLCache) (now : ℚ) : TTLCache :=
  { c with entries := c.entries.filter (fun p => now < p.2.insertedAt + c.ttl) }

/-- Insertion `cache[key] = value` of `cachetools.TTLCache`: sweep
expired entries, then store the value with the current timestamp. -/
def TTLCache.set (c : TTLCache) (key : String) (v : JSON) (now : ℚ) : TTLCache :=
  let c := c.expire now
  { c with entries := alistSet c.entries key ⟨v, now⟩ }

/-- Embeds the `cached_get` accessor produced by `async_cached_property`:
if `key` is in the cache return the stored value, else invoke the wrapped
property, store its result and return it.  `compute` is the value the
underlying network call would produce at this access; the third component
counts how many times the compute was invoked. -/
def cached_get (c : TTLCache) (key : String) (now : ℚ) (compute : JSON) :
    JSON × TTLCache × Nat :=
  match c.lookup key now with
  | some v => (v, c, 0)
  | none => (compute, c.set key compute now, 1)

/-- Argument accepted by the `termination` parameter of
`Home.set_temperature`: the source compares it against the strings `"MANUAL"` and
`"AUTO"` and otherwise passes it through as a duration, so it is either a
string or an integer. -/
inductive Termination where
  | str (s : String)
  | int (n : ℤ)
  deriving DecidableEq, Repr

/-- JSON value a `Termination` argument becomes when placed in a payload. -/
def Termination.toJSON : Termination → JSON
  | .str s => .str s
  | .int n => .num n

/-- Embeds the inner `get_termination_dict` of `Home.set_temperature`. -/
def get_termination_dict (termination : Termination) : JSON :=
  if termination = .str "MANUAL" then .obj [("type", .str "MANUAL")]
  else if termination = .str "AUTO" then .obj [("type", .str "TADO_MODE")]
  else .obj [("type", .str "TIMER"), ("durationInSeconds", termination.toJSON)]

/-- Embeds the inner `get_setting_dict` of `Home.set_temperature`
(`temperature` is the float argument, modelled as a rational). -/
def get_setting_dict (temperature : ℚ) : JSON :=
  if temperature < 5 then .obj [("type", .str "HEATING"), ("power", .str "OFF")]
  else
    .obj [("type", .str "HEATING"), ("power", .str "ON"),
          ("temperature", .obj [("celsius", .num temperature)])]

/-- Payload that `Home.set_temperature` PUTs to the overlay endpoint
of the zone. -/
def set_temperature_payload (temperature : ℚ) (termination : Termination) : JSON :=
  .obj [("setting", get_setting_dict temperature),
        ("termination", get_termination_dict termination)]

/-- Embeds `Home.get_early_start` applied to the body of the
`zones/{zone}/earlyStart` response: the source returns
`response["enabled"]`, not the response itself. -/
def get_early_start (response : JSON) : Except PyErr JSON :=
  response.getKey "enabled"

/-- Payload of `Home.set_early_start`. -/
def set_early_start_payload (enabled : Bool) : JSON :=
  .obj [("enabled", .bool enabled)]

/-- One step of a glom path: field access on an object, raising the
glom `PathAccessError` when the key is missing or the value is not an object. -/
def glomAccess (j : JSON) (k : String) : Except PyErr JSON :=
  match j with
  | .obj fields =>
    match alistGet fields k with
    | some v => .ok v
    | none => .error (.pathAccessError k)
  | _ => .error (.pathAccessError k)

/-- A glom path (dotted string or tuple of path segments) applied left to
right. -/
def glomPath (j : JSON) : List String → Except PyErr JSON
  | [] => .ok j
  | k :: rest =>
    match glomAccess j k with
    | .error e => .error e
    | .ok v => glomPath v rest

/-- Embeds `Zone.inside_temperature`: glom over the cached zone state
with the spec `("sensorDataPoints.insideTemperature", unit)` where `unit`
is the `temperature_unit` of the owning home. -/
def inside_temperature (state : JSON) (temperature_unit : String) : Except PyErr JSON :=
  glomPath state ["sensorDataPoints", "insideTemperature", temperature_unit]

/-- Embeds `Zone.humidity`: glom over the cached zone state with the
path `"sensorDataPoints.humidity.percentage"`. -/
def humidity (state : JSON) : Except PyErr JSON :=
  glomPath state ["sensorDataPoints", "humidity", "percentage"]

/-- A `Zone` instance as constructed by `Home.zones`: `Zone(self, **zone)`
binds the `id` and `name` entries of the zone object to the constructor
parameters, keeps `self` as the back-reference `api`, and collects the
remaining entries of the zone object into `extras`. -/
structure Zone where
  id : JSON
  name : JSON
  api : HomeState
  extras : List (String × JSON)

/-- Entries of a zone object that end up in `Zone.extras`: everything but
the `id` and `name` keyword arguments. -/
def zoneExtras (fields : List (String × JSON)) : List (String × JSON) :=
  fields.filter (fun p => ¬(p.1 = "id" ∨ p.1 = "name"))

/-- Builds one mapping entry of `Home.zones` from one element of the raw
zone array: the dict key is `zone["id"]` and the value is
`Zone(self, **zone)`.  All entity IDs are integers per the API contract,
so the mapping is keyed by the numeric value of the `id` field; a
non-numeric `id` is rejected as a `TypeError`.  A zone object carrying an
`api` key would collide with the positional `self` argument
(`TypeError`), and a missing `name` key is a missing required keyword
argument (`TypeError`). -/
def zoneOfJson (api : HomeState) (z : JSON) : Except PyErr (ℚ × Zone) :=
  match z with
  | .obj fields =>
    match alistGet fields "id" with
    | none => .error (.keyError "id")
    | some idv =>
      match idv with
      | .num n =>
        match alistGet fields "api" with
        | some _ => .error .typeError
        | none =>
          match alistGet fields "name" with
          | none => .error .typeError
          | some namev => .ok (n, ⟨idv, namev, api, zoneExtras fields⟩)
      | _ => .error .typeError
  | _ => .error .typeError

/-- Left fold of the dict comprehension in `Home.zones`, accumulating the
id-to-zone mapping in insertion order. -/
def zonesGo (api : HomeState) : List JSON → List (ℚ × Zone) →
    Except PyErr (List (ℚ × Zone))
  | [], acc => .ok acc
  | z :: rest, acc =>
    match zoneOfJson api z with
    | .error e => .error e
    | .ok (k, zo) => zonesGo api rest (alistSet acc k zo)

/-- Embeds `Home.zones` applied to the body of the `homes/{id}/zones`
response: `{zone["id"]: Zone(self, **zone) for zone in zones}`. -/
def zones (api : HomeState) (resp : JSON) : Except PyErr (List (ℚ × Zone)) :=
  match resp with
  | .arr zs => zonesGo api zs []
  | _ => .error .typeError

/-- Invariant the spec claims for the session state: the stored access
token is a string and the `Authorization` header is exactly `"Bearer "`
followed by it. -/
def auth_header_ok (st : HomeState) : Prop :=
  ∃ s, st.access_token = JSON.str s ∧
    alistGet st.access_headers "Authorization" = some ("Bearer " ++ s)

/-- The raw `id` entry of a zone object, when present. -/
def zoneId (z : JSON) : Option JSON :=
  match z with
  | .obj fields => alistGet fields "id"
  | _ => none

/-- Well-formedness of one element of the zone-listing response, as
claim C8 assumes it: an object carrying a numeric `id` and a `name`, and
no `api` key (which would collide with the positional `self` argument of
the `Zone` constructor). -/
def WFZone (z : JSON) : Prop :=
  ∃ fields n namev, z = JSON.obj fields ∧
    alistGet fields "id" = some (JSON.num n) ∧
    alistGet fields "name" = some namev ∧
    alistGet fields "api" = none

theorem alistGet_alistSet_self {κ α : Type} [DecidableEq κ]
    (d : List (κ × α)) (k : κ) (v : α) :
    alistGet (alistSet d k v) k = some v := by
  induction d with
  | nil => simp [alistGet, alistSet]
  | cons p rest ih =>
    by_cases h : p.1 = k
    · simp [alistSet, alistGet, h]
    · simp [alistSet, alistGet, h, ih]

theorem alistGet_alistSet_ne {κ α : Type} [DecidableEq κ]
    (d : List (κ × α)) (k q : κ) (v : α) (h : q ≠ k) :
    alistGet (alistSet d k v) q = alistGet d q := by
  induction d with
  | nil => simp [alistGet, alistSet, h.symm]
  | cons p rest ih =>
    by_cases hp : p.1 = k
    · simp [alistSet, alistGet, hp, h.symm]
    · simp [alistSet, alistGet, hp, ih]

theorem login_success_header (u p s : String) (tr mr : HttpResponse)
    (stL : HomeState) (h : login u p s tr mr = .ok stL) : auth_header_ok stL := by
  unfold login at h
  split at h
  · exact absurd h (by simp)
  case _ atok h1 =>
    split at h
    · exact absurd h (by simp)
    case _ rtok h2 =>
      split at h
      · exact absurd h (by simp)
      case _ tok2 h3 =>
        split at h
        case _ s0 =>
          split at h
          · exact absurd h (by simp)
          case _ homes h4 =>
            split at h
            · exact absurd h (by simp)
            case _ hh tl =>
              split at h
              · exact absurd h (by simp)
              case _ idv h5 =>
                obtain rfl := Except.ok.inj h3
                injection h with h6
                subst h6
                exact ⟨s0, rfl, alistGet_alistSet_self _ _ _⟩
            case _ => exact absurd h (by simp)
        case _ => exact absurd h (by simp)

theorem refresh_success_header (st : HomeState) (resp : HttpResponse)
    (stR : HomeState) (h : refresh_auth st resp = .ok stR) : auth_header_ok stR := by
  unfold refresh_auth at h
  split at h
  · exact absurd h (by simp)
  · split at h
    · exact absurd h (by simp)
    case _ tok h1 =>
      split at h
      · exact absurd h (by simp)
      case _ rtok h2 =>
        split at h
        case _ s0 =>
          injection h with h6
          subst h6
          exact ⟨s0, rfl, alistGet_alistSet_self _ _ _⟩
        case _ => exact absurd h (by simp)

/-- C1 (counterexample): the claim says a failed `refresh_auth` leaves
`access_token`, `refresh_token` and the `Authorization` header all
exactly as they were.  On a 200 response whose body carries
`access_token` but lacks `refresh_token`, the call fails with `KeyError`
yet the stored `access_token` has already been overwritten ("NEW" is not
the prior "OLD"), so the claimed no-partial-mutation property is false. -/
theorem claim_C1_counterexample :
    refresh_auth
        ⟨"u", "s", JSON.num 1, JSON.str "OLD", JSON.str "ROLD",
         [("Referer", "https://my.tado.com/"), ("Authorization", "Bearer OLD")],
         "celsius"⟩
        ⟨200, JSON.obj [("access_token", JSON.str "NEW")]⟩ =
      .error (.keyError "refresh_token",
        ⟨"u", "s", JSON.num 1, JSON.str "NEW", JSON.str "ROLD",
         [("Referer", "https://my.tado.com/"), ("Authorization", "Bearer OLD")],
         "celsius"⟩) ∧
    JSON.str "NEW" ≠ JSON.str "OLD" := by
  refine ⟨rfl, ?_⟩
  intro hc
  exact absurd (JSON.str.inj hc) (by decide)

/-- C1 (amended): a `refresh_auth` that fails on a non-2xx HTTP status
(status >= 400, which is what the transport raises on) or because the
response lacks `access_token` leaves the whole session state unchanged;
but when the response carries `access_token` and lacks `refresh_token`,
the stored `access_token` is updated to the new value while
`refresh_token` and the `Authorization` header keep their prior values. -/
theorem claim_C1 (st : HomeState) (resp : HttpResponse) :
    (400 ≤ resp.status →
      refresh_auth st resp = .error (.clientResponseError resp.status, st)) ∧
    (resp.status < 400 → ∀ e, resp.body.getKey "access_token" = .error e →
      refresh_auth st resp = .error (e, st)) ∧
    (resp.status < 400 → ∀ tok e, resp.body.getKey "access_token" = .ok tok →
      resp.body.getKey "refresh_token" = .error e →
      refresh_auth st resp = .error (e, { st with access_token := tok })) := by
  refine ⟨?_, ?_, ?_⟩
  · intro h
    simp [refresh_auth, h]
  · intro h e he
    simp [refresh_auth, Nat.not_le.mpr h, he]
  · intro h tok e htok he
    simp [refresh_auth, Nat.not_le.mpr h, htok, he]

/-- C1 (witness): the amended theorem applied at a 200 response whose
body carries only `access_token`. -/
theorem claim_C1_witness :
    (200 : Nat) < 400 ∧
    refresh_auth
        ⟨"u", "s", JSON.num 1, JSON.str "OLD", JSON.str "ROLD",
         [("Referer", "https://my.tado.com/"), ("Authorization", "Bearer OLD")],
         "celsius"⟩
        ⟨200, JSON.obj [("access_token", JSON.str "NEW")]⟩ =
      .error (.keyError "refresh_token",
        ⟨"u", "s", JSON.num 1, JSON.str "NEW", JSON.str "ROLD",
         [("Referer", "https://my.tado.com/"), ("Authorization", "Bearer OLD")],
         "celsius"⟩) :=
  ⟨by norm_num,
   (claim_C1 _ _).2.2 (by norm_num) (JSON.str "NEW") (.keyError "refresh_token")
     rfl rfl⟩

/-- C2 (counterexample): the claim says `login` never returns a session
when the OAuth endpoint answers non-2xx.  The source never checks the
status of the token response, so a 401 response whose body still carries both
token fields yields a fully populated session. -/
theorem claim_C2_counterexample :
    (300 : Nat) ≤ 401 ∧
    login "user" "pass" "secret"
        ⟨401, JSON.obj [("access_token", JSON.str "A1"),
                        ("refresh_token", JSON.str "R1")]⟩
        ⟨200, JSON.obj [("homes", JSON.arr [JSON.obj [("id", JSON.num 42)]])]⟩ =
      .ok ⟨"user", "secret", JSON.num 42, JSON.str "A1", JSON.str "R1",
           [("Referer", "https://my.tado.com/"), ("Authorization", "Bearer A1")],
           "celsius"⟩ :=
  ⟨by norm_num, rfl⟩

/-- C2 (amended): `login` performs no HTTP status check at all — its
result is independent of the status of the token response — and when the
token response body lacks `access_token` or `refresh_token` it fails
with a generic `KeyError` naming the missing field (the code defines no
authentication-specific error type). -/
theorem claim_C2 (u p s : String) (status status2 : Nat) (body : JSON)
    (mr : HttpResponse) :
    login u p s ⟨status, body⟩ mr = login u p s ⟨status2, body⟩ mr ∧
    (∀ e, body.getKey "access_token" = .error e →
      login u p s ⟨status, body⟩ mr = .error e) ∧
    (∀ tok e, body.getKey "access_token" = .ok tok →
      body.getKey "refresh_token" = .error e →
      login u p s ⟨status, body⟩ mr = .error e) := by
  refine ⟨rfl, ?_, ?_⟩
  · intro e he
    simp [login, he]
  · intro tok e htok he
    simp [login, htok, he]

/-- C2 (witness): the amended theorem applied at a body with no token
fields. -/
theorem claim_C2_witness :
    login "u" "p" "s" ⟨401, JSON.obj []⟩ ⟨200, JSON.null⟩ =
      .error (.keyError "access_token") :=
  (claim_C2 "u" "p" "s" 401 999 (JSON.obj []) ⟨200, JSON.null⟩).2.1
    (.keyError "access_token") rfl

/-- C3: with an entry stored for `key`, an access while `now` is within
`ttl` of the insertion of the entry returns the stored value with zero
invocations of the compute and an unchanged cache; an access at or past
the end of the TTL window invokes the compute exactly once, and the
fresh result is stored and visible in the updated cache. -/
theorem claim_C3 (c : TTLCache) (key : String) (e : CacheEntry) (now : ℚ)
    (compute : JSON) (hmem : alistGet c.entries key = some e) (httl : 0 < c.ttl) :
    (now - e.insertedAt < c.ttl →
      cached_get c key now compute = (e.value, c, 0)) ∧
    (c.ttl ≤ now - e.insertedAt →
      cached_get c key now compute = (compute, c.set key compute now, 1) ∧
      (c.set key compute now).lookup key now = some compute) := by
  constructor
  · intro hfresh
    have hlt : now < e.insertedAt + c.ttl := by linarith
    simp [cached_get, TTLCache.lookup, hmem, hlt]
  · intro hexp
    have hge : ¬ now < e.insertedAt + c.ttl := by linarith
    refine ⟨by simp [cached_get, TTLCache.lookup, hmem, hge], ?_⟩
    have hnow : now < now + c.ttl := by linarith
    simp [TTLCache.lookup, TTLCache.set, TTLCache.expire,
          alistGet_alistSet_self, hnow]

/-- C3 (witness): a cache with one entry inserted at time 0 under a
60-second TTL, read back at time 30 (hit, no compute) and at time 60
(miss, one compute, fresh value stored). -/
theorem claim_C3_witness :
    ((30 : ℚ) - 0 < 60 ∧
      cached_get ⟨16, 60, [("devices", ⟨JSON.num 1, 0⟩)]⟩ "devices" 30
          (JSON.num 2) =
        (JSON.num 1, ⟨16, 60, [("devices", ⟨JSON.num 1, 0⟩)]⟩, 0)) ∧
    ((60 : ℚ) ≤ 60 - 0 ∧
      cached_get ⟨16, 60, [("devices", ⟨JSON.num 1, 0⟩)]⟩ "devices" 60
          (JSON.num 2) =
        (JSON.num 2,
         TTLCache.set ⟨16, 60, [("devices", ⟨JSON.num 1, 0⟩)]⟩ "devices"
           (JSON.num 2) 60, 1)) :=
  ⟨⟨by norm_num,
    ((claim_C3 ⟨16, 60, [("devices", ⟨JSON.num 1, 0⟩)]⟩ "devices"
        ⟨JSON.num 1, 0⟩ 30 (JSON.num 2) rfl (by norm_num)).1
      (by norm_num))⟩,
   ⟨by norm_num,
    ((claim_C3 ⟨16, 60, [("devices", ⟨JSON.num 1, 0⟩)]⟩ "devices"
        ⟨JSON.num 1, 0⟩ 60 (JSON.num 2) rfl (by norm_num)).2
      (by norm_num)).1⟩⟩

/-- C4: for a temperature below 5, `get_setting_dict` is the
power-off payload with no temperature field; at or above 5 it is the
power-on payload carrying `{celsius: temperature}`; and the `setting`
component of the overlay payload does not depend on the termination
argument. -/
theorem claim_C4 (t : ℚ) (term term2 : Termination) :
    (t < 5 → get_setting_dict t =
      .obj [("type", .str "HEATING"), ("power", .str "OFF")]) ∧
    (t < 5 → (get_setting_dict t).getKey "temperature" =
      .error (.keyError "temperature")) ∧
    (5 ≤ t → get_setting_dict t =
      .obj [("type", .str "HEATING"), ("power", .str "ON"),
            ("temperature", .obj [("celsius", .num t)])]) ∧
    (set_temperature_payload t term).getKey "setting" =
      .ok (get_setting_dict t) ∧
    (set_temperature_payload t term).getKey "setting" =
      (set_temperature_payload t term2).getKey "setting" := by
  refine ⟨?_, ?_, ?_, rfl, rfl⟩
  · intro h
    simp [get_setting_dict, h]
  · intro h
    unfold get_setting_dict
    rw [if_pos h]
    rfl
  · intro h
    simp [get_setting_dict, not_lt.mpr h]

/-- C4 (witness): the theorem applied at 3 degrees (below the cutoff)
and at 20.5 degrees (above it). -/
theorem claim_C4_witness :
    ((3 : ℚ) < 5 ∧ get_setting_dict 3 =
      .obj [("type", .str "HEATING"), ("power", .str "OFF")]) ∧
    ((5 : ℚ) ≤ 20.5 ∧ get_setting_dict 20.5 =
      .obj [("type", .str "HEATING"), ("power", .str "ON"),
            ("temperature", .obj [("celsius", .num 20.5)])]) :=
  ⟨⟨by norm_num, (claim_C4 3 (.str "MANUAL") (.int 600)).1 (by norm_num)⟩,
   ⟨by norm_num, (claim_C4 20.5 (.str "AUTO") (.int 600)).2.2.1 (by norm_num)⟩⟩

/-- C5: `get_termination_dict` maps `"MANUAL"` to `{type: MANUAL}`,
`"AUTO"` to `{type: TADO_MODE}`, and any other argument to
`{type: TIMER, durationInSeconds: argument}`; in particular every
integer argument lands in the TIMER branch with its value passed
through. -/
theorem claim_C5 (term : Termination) (n : ℤ) :
    get_termination_dict (.str "MANUAL") = .obj [("type", .str "MANUAL")] ∧
    get_termination_dict (.str "AUTO") = .obj [("type", .str "TADO_MODE")] ∧
    (term ≠ .str "MANUAL" → term ≠ .str "AUTO" →
      get_termination_dict term =
        .obj [("type", .str "TIMER"), ("durationInSeconds", term.toJSON)]) ∧
    get_termination_dict (.int n) =
      .obj [("type", .str "TIMER"), ("durationInSeconds", .num n)] := by
  refine ⟨rfl, rfl, ?_, rfl⟩
  intro h1 h2
  simp [get_termination_dict, h1, h2]

/-- C5 (witness): the theorem applied at the integer termination 600. -/
theorem claim_C5_witness :
    Termination.int 600 ≠ Termination.str "MANUAL" ∧
    Termination.int 600 ≠ Termination.str "AUTO" ∧
    get_termination_dict (.int 600) =
      .obj [("type", .str "TIMER"), ("durationInSeconds", .num 600)] :=
  ⟨by decide, by decide,
   (claim_C5 (.int 600) 600).2.2.1 (by decide) (by decide)⟩

/-- C6 (counterexample): the claim says the `Authorization` header always
reflects the most recently obtained access token, even after a failed
refresh.  A refresh whose response carries `access_token` but lacks
`refresh_token` stores the new token "A2" but leaves the header at
"Bearer A1", so the invariant is broken on the resulting state. -/
theorem claim_C6_counterexample :
    refresh_auth
        ⟨"user", "secret", JSON.num 42, JSON.str "A1", JSON.str "R1",
         [("Referer", "https://my.tado.com/"), ("Authorization", "Bearer A1")],
         "celsius"⟩
        ⟨200, JSON.obj [("access_token", JSON.str "A2")]⟩ =
      .error (.keyError "refresh_token",
        ⟨"user", "secret", JSON.num 42, JSON.str "A2", JSON.str "R1",
         [("Referer", "https://my.tado.com/"), ("Authorization", "Bearer A1")],
         "celsius"⟩) ∧
    ¬ auth_header_ok
        ⟨"user", "secret", JSON.num 42, JSON.str "A2", JSON.str "R1",
         [("Referer", "https://my.tado.com/"), ("Authorization", "Bearer A1")],
         "celsius"⟩ := by
  refine ⟨rfl, ?_⟩
  rintro ⟨s, hs, hh⟩
  obtain rfl : s = "A2" := (JSON.str.inj hs).symm
  simp [alistGet] at hh

/-- C6 (amended): after a `login` that returns a session and after every
`refresh_auth` call that succeeds, the `Authorization` header equals
`"Bearer "` followed by the stored access token.  (A refresh that fails
between updating the token and updating the header can break the
invariant, as the counterexample shows.) -/
theorem claim_C6 (u p s : String) (tr mr resp : HttpResponse)
    (st stL stR : HomeState) :
    (login u p s tr mr = .ok stL → auth_header_ok stL) ∧
    (refresh_auth st resp = .ok stR → auth_header_ok stR) :=
  ⟨login_success_header u p s tr mr stL,
   refresh_success_header st resp stR⟩

/-- C6 (witness): the amended theorem applied to a concrete successful
login. -/
theorem claim_C6_witness :
    auth_header_ok
      ⟨"user", "secret", JSON.num 42, JSON.str "A1", JSON.str "R1",
       [("Referer", "https://my.tado.com/"), ("Authorization", "Bearer A1")],
       "celsius"⟩ :=
  (claim_C6 "user" "pass" "secret"
      ⟨200, JSON.obj [("access_token", JSON.str "A1"),
                      ("refresh_token", JSON.str "R1")]⟩
      ⟨200, JSON.obj [("homes", JSON.arr [JSON.obj [("id", JSON.num 42)]])]⟩
      ⟨200, JSON.null⟩
      ⟨"x", "x", JSON.null, JSON.null, JSON.null, [], "celsius"⟩
      ⟨"user", "secret", JSON.num 42, JSON.str "A1", JSON.str "R1",
       [("Referer", "https://my.tado.com/"), ("Authorization", "Bearer A1")],
       "celsius"⟩
      ⟨"x", "x", JSON.null, JSON.null, JSON.null, [], "celsius"⟩).1 rfl

/-- C7 (counterexample): the claim says `get_early_start` returns the
JSON response of the endpoint verbatim.  On the documented response
`{enabled: true}` it returns the bare boolean `true`, which is not the
response object, so the pass-through claim is false. -/
theorem claim_C7_counterexample :
    get_early_start (JSON.obj [("enabled", JSON.bool true)]) =
      .ok (JSON.bool true) ∧
    (Except.ok (JSON.bool true) : Except PyErr JSON) ≠
      .ok (JSON.obj [("enabled", JSON.bool true)]) := by
  refine ⟨rfl, ?_⟩
  intro hc
  cases Except.ok.inj hc

/-- C7 (amended): `get_early_start` projects the `enabled` field out of
the JSON response of the endpoint and returns the value of that field,
not the response itself. -/
theorem claim_C7 (fields : List (String × JSON)) (v : JSON)
    (h : alistGet fields "enabled" = some v) :
    get_early_start (JSON.obj fields) = .ok v := by
  simp [get_early_start, JSON.getKey, h]

/-- C7 (witness): the amended theorem applied to the documented response
shape. -/
theorem claim_C7_witness :
    get_early_start (JSON.obj [("enabled", JSON.bool false)]) =
      .ok (JSON.bool false) :=
  claim_C7 [("enabled", JSON.bool false)] (JSON.bool false) rfl

theorem zoneOfJson_wf (api : HomeState) (fields : List (String × JSON)) (n : ℚ)
    (namev : JSON) (hid : alistGet fields "id" = some (JSON.num n))
    (hname : alistGet fields "name" = some namev)
    (hapi : alistGet fields "api" = none) :
    zoneOfJson api (JSON.obj fields) =
      .ok (n, ⟨JSON.num n, namev, api, zoneExtras fields⟩) := by
  simp [zoneOfJson, hid, hname, hapi]

theorem zonesGo_spec (api : HomeState) : ∀ zs : List JSON,
    (∀ z ∈ zs, WFZone z) →
    zs.Pairwise (fun a b => zoneId a ≠ zoneId b) →
    ∀ acc, ∃ m, zonesGo api zs acc = .ok m ∧
      (∀ q : ℚ, (∀ z ∈ zs, zoneId z ≠ some (JSON.num q)) →
        alistGet m q = alistGet acc q) ∧
      (∀ z ∈ zs, ∀ fields n namev, z = JSON.obj fields →
        alistGet fields "id" = some (JSON.num n) →
        alistGet fields "name" = some namev →
        alistGet m n = some ⟨JSON.num n, namev, api, zoneExtras fields⟩) := by
  intro zs
  induction zs with
  | nil =>
    intro _ _ acc
    exact ⟨acc, rfl, fun _ _ => rfl, by simp⟩
  | cons z rest ih =>
    intro hwf hdist acc
    obtain ⟨fields, n, namev, hz, hid, hname, hapi⟩ := hwf z (List.mem_cons_self _ _)
    rw [List.pairwise_cons] at hdist
    obtain ⟨hhead, htail⟩ := hdist
    have hzid : zoneId z = some (JSON.num n) := by
      rw [hz]; simp [zoneId, hid]
    obtain ⟨m, hm, hout, hin⟩ :=
      ih (fun z2 h2 => hwf z2 (List.mem_cons_of_mem _ h2)) htail
        (alistSet acc n ⟨JSON.num n, namev, api, zoneExtras fields⟩)
    refine ⟨m, ?_, ?_, ?_⟩
    · rw [hz]
      simp only [zonesGo, zoneOfJson_wf api fields n namev hid hname hapi]
      exact hm
    · intro q hq
      rw [hout q (fun z2 h2 => hq z2 (List.mem_cons_of_mem _ h2))]
      have hqn : q ≠ n := by
        intro he
        exact hq z (List.mem_cons_self _ _) (by rw [hzid, he])
      exact alistGet_alistSet_ne _ _ _ _ hqn
    · intro z2 h2 fields2 n2 namev2 hz2 hid2 hname2
      rcases List.mem_cons.mp h2 with h2 | h2
      · subst h2
        rw [hz] at hz2
        obtain rfl : fields = fields2 := JSON.obj.inj hz2
        rw [hid] at hid2
        obtain rfl : n = n2 := JSON.num.inj (Option.some.inj hid2)
        rw [hname] at hname2
        obtain rfl : namev = namev2 := Option.some.inj hname2
        have hrest : ∀ z3 ∈ rest, zoneId z3 ≠ some (JSON.num n) := by
          intro z3 h3 he
          exact hhead z3 h3 (by rw [hzid, he])
        rw [hout n hrest]
        exact alistGet_alistSet_self _ _ _
      · exact hin z2 h2 fields2 n2 namev2 hz2 hid2 hname2

/-- C8: on a zone-listing response that is a list of zone objects each
carrying a numeric `id` and a `name`, with pairwise distinct ids,
`Home.zones` succeeds and its result maps each zone id to a `Zone`
built from that id, that name, the owning home accessor as
back-reference, and the remaining entries of the object as extras. -/
theorem claim_C8 (api : HomeState) (zs : List JSON)
    (hwf : ∀ z ∈ zs, WFZone z)
    (hdist : zs.Pairwise (fun a b => zoneId a ≠ zoneId b)) :
    (∃ m, zones api (JSON.arr zs) = .ok m) ∧
    (∀ m, zones api (JSON.arr zs) = .ok m →
      ∀ z ∈ zs, ∀ fields n namev, z = JSON.obj fields →
        alistGet fields "id" = some (JSON.num n) →
        alistGet fields "name" = some namev →
        alistGet m n = some ⟨JSON.num n, namev, api, zoneExtras fields⟩) := by
  obtain ⟨m, hm, hout, hin⟩ := zonesGo_spec api zs hwf hdist []
  have hz : zones api (JSON.arr zs) = zonesGo api zs [] := rfl
  constructor
  · exact ⟨m, hz.trans hm⟩
  · intro m2 hm2
    obtain rfl : m = m2 := Except.ok.inj ((hm.symm.trans hz.symm).trans hm2)
    exact hin

/-- C8 (witness): the theorem applied to the response
`[{id: 1, name: "Living"}]`, which yields the mapping
`{1: Zone(id=1, name="Living")}`. -/
theorem claim_C8_witness :
    alistGet
        [((1 : ℚ),
          (⟨JSON.num 1, JSON.str "Living",
            ⟨"user", "secret", JSON.num 42, JSON.str "A1", JSON.str "R1",
             [("Referer", "https://my.tado.com/"),
              ("Authorization", "Bearer A1")], "celsius"⟩, []⟩ : Zone))]
        (1 : ℚ) =
      some ⟨JSON.num 1, JSON.str "Living",
            ⟨"user", "secret", JSON.num 42, JSON.str "A1", JSON.str "R1",
             [("Referer", "https://my.tado.com/"),
              ("Authorization", "Bearer A1")], "celsius"⟩, []⟩ := by
  have h := (claim_C8
      ⟨"user", "secret", JSON.num 42, JSON.str "A1", JSON.str "R1",
       [("Referer", "https://my.tado.com/"), ("Authorization", "Bearer A1")],
       "celsius"⟩
      [JSON.obj [("id", JSON.num 1), ("name", JSON.str "Living")]]
      (by
        intro z hzm
        rw [List.mem_singleton] at hzm
        subst hzm
        exact ⟨[("id", JSON.num 1), ("name", JSON.str "Living")], 1,
          JSON.str "Living", rfl, rfl, rfl, rfl⟩)
      (by simp)).2
      [((1 : ℚ),
        (⟨JSON.num 1, JSON.str "Living",
          ⟨"user", "secret", JSON.num 42, JSON.str "A1", JSON.str "R1",
           [("Referer", "https://my.tado.com/"),
            ("Authorization", "Bearer A1")], "celsius"⟩, []⟩ : Zone))]
      rfl
      (JSON.obj [("id", JSON.num 1), ("name", JSON.str "Living")])
      (List.mem_singleton.mpr rfl)
      [("id", JSON.num 1), ("name", JSON.str "Living")]
      1 (JSON.str "Living") rfl rfl rfl
  exact h

/-- C9: `inside_temperature` returns exactly the value stored under
`sensorDataPoints.insideTemperature.<unit>` of the cached zone state,
for whatever unit the home is configured with. -/
theorem claim_C9 (state dp it v : JSON) (unit : String)
    (h1 : glomAccess state "sensorDataPoints" = .ok dp)
    (h2 : glomAccess dp "insideTemperature" = .ok it)
    (h3 : glomAccess it unit = .ok v) :
    inside_temperature state unit = .ok v := by
  simp [inside_temperature, glomPath, h1, h2, h3]

/-- C9 (witness): the theorem applied to a state whose
`sensorDataPoints.insideTemperature.celsius` is 20.5 under unit
`"celsius"`. -/
theorem claim_C9_witness :
    inside_temperature
        (JSON.obj [("sensorDataPoints",
          JSON.obj [("insideTemperature",
            JSON.obj [("celsius", JSON.num 20.5),
                      ("fahrenheit", JSON.num 68.9)])])])
        "celsius" = .ok (JSON.num 20.5) :=
  claim_C9 _ _ _ _ "celsius" rfl rfl rfl

/-- C10: `login` requires a non-empty homes list in the profile
response: with `homes = []` it fails with an unguarded index error and
returns no session, and with a non-empty list it returns a session whose
`home_id` is the `id` of the first element. -/
theorem claim_C10 (u p s : String) (tr mr : HttpResponse) (a : String)
    (rt : JSON)
    (ha : tr.body.getKey "access_token" = .ok (JSON.str a))
    (hr : tr.body.getKey "refresh_token" = .ok rt) :
    (mr.body.getKey "homes" = .ok (JSON.arr []) →
      login u p s tr mr = .error .indexError) ∧
    (∀ h0 rest idv, mr.body.getKey "homes" = .ok (JSON.arr (h0 :: rest)) →
      h0.getKey "id" = .ok idv →
      login u p s tr mr =
        .ok { username := u, secret := s, id := idv,
              access_token := JSON.str a, refresh_token := rt,
              access_headers := alistSet HEADERS "Authorization" ("Bearer " ++ a),
              temperature_unit := "celsius" }) := by
  constructor
  · intro hh
    simp [login, ha, hr, hh]
  · intro h0 rest idv hh hid
    simp [login, ha, hr, hh, hid]

/-- C10 (witness): the theorem applied at a profile response whose homes
list is empty. -/
theorem claim_C10_witness :
    login "u" "p" "s"
        ⟨200, JSON.obj [("access_token", JSON.str "A1"),
                        ("refresh_token", JSON.str "R1")]⟩
        ⟨200, JSON.obj [("homes", JSON.arr [])]⟩ = .error .indexError :=
  (claim_C10 "u" "p" "s"
      ⟨200, JSON.obj [("access_token", JSON.str "A1"),
                      ("refresh_token", JSON.str "R1")]⟩
      ⟨200, JSON.obj [("homes", JSON.arr [])]⟩
      "A1" (JSON.str "R1") rfl rfl).1 rfl

end Tado
